import Mathlib

/-
Shallow embedding of github.com/andreyvit/assert (src/assert.go).

The package's assertion functions take a reporting capability `t TB`
(with operations Helper() and Errorf(format, args...)), operands, and a
variadic `messageAndArgs ...any` tail.  We model a call's observable
behaviour as the sequence of operations performed on the TB plus the
outcome (returned boolean, or a propagated panic).  Errorf events record
the fully rendered message, exactly as a testing.T would format it.

Go `any` values are modelled by `GoAny`, restricted to the shapes this
package inspects: the untyped nil interface, strings (the only type the
package type-asserts on), and everything else carried as its %T and %v
renderings.  Go errors are modelled by `GoErr` (a message plus an
optional wrapped cause, enough for errors.Is chain matching); an `error`
variable is `Option GoErr` with `none` for nil.  Go slices and maps are
`Option` of a list so that a nil (uninitialized) container stays
distinguishable from a zero-length initialized one.
-/

/-- A Go interface value (`any`), restricted to the shapes inspected by the
assert package: the nil interface, a string, or any other value carried
together with its %T (type) and %v (value) renderings. -/
inductive GoAny where
  | nil
  | str (s : String)
  | other (typ : String) (rendered : String)
  deriving DecidableEq

/-- The %v rendering of a GoAny (model of Go fmt's default verb). -/
def GoAny.render : GoAny → String
  | .nil => "<nil>"
  | .str s => s
  | .other _ r => r

/-- The %T rendering of a GoAny (model of Go fmt's type verb). -/
def GoAny.typeName : GoAny → String
  | .nil => "<nil>"
  | .str _ => "string"
  | .other t _ => t

/-- A Go int wrapped as an interface value. -/
def goInt (n : Int) : GoAny := .other "int" (toString n)

/-- Model of Go fmt.Sprintf's scanning loop, restricted to the verbs this
package uses (%v, %s, %d substitute the argument's value rendering, %T its
type, %% a literal percent); missing and extra arguments produce fmt's
%!(MISSING)/%!(EXTRA ...) markers. -/
def fmt.SprintfAux : List Char → List GoAny → String
  | [], [] => ""
  | [], a :: as =>
    "%!(EXTRA " ++
      String.intercalate ", " ((a :: as).map (fun x => x.typeName ++ "=" ++ x.render)) ++ ")"
  | '%' :: '%' :: rest, args => "%" ++ fmt.SprintfAux rest args
  | '%' :: c :: rest, args =>
    if c = 'v' ∨ c = 's' ∨ c = 'd' then
      match args with
      | [] => "%!" ++ c.toString ++ "(MISSING)" ++ fmt.SprintfAux rest []
      | a :: as => a.render ++ fmt.SprintfAux rest as
    else if c = 'T' then
      match args with
      | [] => "%!T(MISSING)" ++ fmt.SprintfAux rest []
      | a :: as => a.typeName ++ fmt.SprintfAux rest as
    else "%" ++ c.toString ++ fmt.SprintfAux rest args
  | c :: rest, args => c.toString ++ fmt.SprintfAux rest args

/-- Model of Go fmt.Sprintf for the verbs used in this package. -/
def fmt.Sprintf (format : String) (args : List GoAny) : String :=
  fmt.SprintfAux format.toList args

/-- Model of Go fmt.Sprint on a single operand: its %v rendering. -/
def fmt.Sprint (v : GoAny) : String := v.render

/-- A Go error value: a message, optionally wrapping a cause
(for errors.Is chain matching). -/
inductive GoErr where
  | leaf (msg : String)
  | wrap (msg : String) (cause : GoErr)
  deriving DecidableEq

/-- Error() / %v rendering of a Go error. -/
def GoErr.msg : GoErr → String
  | .leaf m => m
  | .wrap m _ => m

/-- Model of Go errors.Is for these error values: the target matches if it
equals the error or appears anywhere in its chain of wrapped causes. -/
def errors.Is : GoErr → GoErr → Bool
  | a, e =>
    if a = e then true
    else
      match a with
      | .leaf _ => false
      | .wrap _ c => errors.Is c e

/-- One operation performed on the reporting capability (TB): a Helper()
mark, or an Errorf report carrying the rendered message. -/
inductive TBCall where
  | helper
  | errorf (message : String)
  deriving DecidableEq

/-- How an assertion call ends: a returned boolean, or a propagating panic
carrying the panic error's message. -/
inductive Outcome where
  | ret (b : Bool)
  | panicked (message : String)
  deriving DecidableEq

/-- The observable behaviour of one assertion call: the sequence of
operations performed on the TB, and the outcome. -/
structure AOut where
  calls : List TBCall
  out : Outcome
  deriving DecidableEq

/-- FormatPrefix (src/assert.go:262).  Empty tail yields the empty prefix;
a string-led tail is rendered printf-style with ": " appended; any other
leading element panics with an error naming its type and value
(`.error` carries the panic error's message). -/
def assert.FormatPrefix (messageAndArgs : List GoAny) : Except String String :=
  match messageAndArgs with
  | [] => .ok ""
  | .str msg :: rest => .ok (fmt.Sprintf msg rest ++ ": ")
  | x :: _ =>
    .error ("when passing messageAndArgs to assertion funcs, the first extra argument must be a format string, got "
      ++ x.typeName ++ " " ++ x.render)

/-- AddPrefix (src/assert.go:274).  `pfx`/`args` are the Go parameters
`prefix`/`args`. -/
def assert.AddPrefix (messageAndArgs : List GoAny) (pfx : String) (args : List GoAny) : List GoAny :=
  match messageAndArgs with
  | .str msg :: rest => (.str (pfx ++ ": " ++ msg) :: args) ++ rest
  | _ => (.str pfx :: args) ++ messageAndArgs

/-- OK (src/assert.go:24): asserts that the value is true.  Go body:
if !a { t.Helper(); t.Errorf("** %sgot false, wanted true", FormatPrefix(messageAndArgs)); return false }; return true. -/
def assert.OK (a : Bool) (messageAndArgs : List GoAny) : AOut :=
  if !a then
    match assert.FormatPrefix messageAndArgs with
    | .ok p => ⟨[.helper, .errorf ("** " ++ p ++ "got false, wanted true")], .ret false⟩
    | .error e => ⟨[.helper], .panicked e⟩
  else ⟨[], .ret true⟩

/-- False (src/assert.go:34): asserts that the value is false. -/
def assert.False (a : Bool) (messageAndArgs : List GoAny) : AOut :=
  if a then
    match assert.FormatPrefix messageAndArgs with
    | .ok p => ⟨[.helper, .errorf ("** " ++ p ++ "got true, wanted false")], .ret false⟩
    | .error e => ⟨[.helper], .panicked e⟩
  else ⟨[], .ret true⟩

/-- Eq (src/assert.go:44): asserts two values equal via the == operator;
`render` is the operand type's %v rendering. -/
def assert.Eq {T : Type} [DecidableEq T] (render : T → String) (a e : T)
    (messageAndArgs : List GoAny) : AOut :=
  if a ≠ e then
    match assert.FormatPrefix messageAndArgs with
    | .ok p =>
      ⟨[.helper, .errorf ("** " ++ p ++ "got " ++ render a ++ ", wanted " ++ render e)], .ret false⟩
    | .error err => ⟨[.helper], .panicked err⟩
  else ⟨[], .ret true⟩

/-- NotEq (src/assert.go:54): asserts two values not equal via !=. -/
def assert.NotEq {T : Type} [DecidableEq T] (render : T → String) (a e : T)
    (messageAndArgs : List GoAny) : AOut :=
  if a = e then
    match assert.FormatPrefix messageAndArgs with
    | .ok p =>
      ⟨[.helper, .errorf ("** " ++ p ++ "got " ++ render a ++ ", wanted anything else")], .ret false⟩
    | .error err => ⟨[.helper], .panicked err⟩
  else ⟨[], .ret true⟩

/-- DeepEqual (src/assert.go:64): asserts equality via reflect.DeepEqual,
modelled by the parameter `deepEqual`. -/
def assert.DeepEqual {T : Type} (deepEqual : T → T → Bool) (render : T → String) (a e : T)
    (messageAndArgs : List GoAny) : AOut :=
  if !(deepEqual a e) then
    match assert.FormatPrefix messageAndArgs with
    | .ok p =>
      ⟨[.helper, .errorf ("** " ++ p ++ "got " ++ render a ++ ", wanted " ++ render e)], .ret false⟩
    | .error err => ⟨[.helper], .panicked err⟩
  else ⟨[], .ret true⟩

/-- NotDeepEqual (src/assert.go:76): asserts inequality via
!reflect.DeepEqual. -/
def assert.NotDeepEqual {T : Type} (deepEqual : T → T → Bool) (render : T → String) (a e : T)
    (messageAndArgs : List GoAny) : AOut :=
  if deepEqual a e then
    match assert.FormatPrefix messageAndArgs with
    | .ok p =>
      ⟨[.helper, .errorf ("** " ++ p ++ "got " ++ render a ++ ", wanted anything else")], .ret false⟩
    | .error err => ⟨[.helper], .panicked err⟩
  else ⟨[], .ret true⟩

/-- MethodEqual (src/assert.go:86): asserts equality via the operands'
own Equal method, modelled by `equal`; the Go source calls e.Equal(a).
Note the Go body calls t.Helper() BEFORE the condition check, so the
helper mark happens on success too. -/
def assert.MethodEqual {T : Type} (equal : T → T → Bool) (render : T → String) (a e : T)
    (messageAndArgs : List GoAny) : AOut :=
  if !(equal e a) then
    match assert.FormatPrefix messageAndArgs with
    | .ok p =>
      ⟨[.helper, .errorf ("** " ++ p ++ "got " ++ render a ++ ", wanted " ++ render e)], .ret false⟩
    | .error err => ⟨[.helper], .panicked err⟩
  else ⟨[.helper], .ret true⟩

/-- NotMethodEqual (src/assert.go:96): negation of MethodEqual; like it,
the Go body calls t.Helper() before the condition check. -/
def assert.NotMethodEqual {T : Type} (equal : T → T → Bool) (render : T → String) (a e : T)
    (messageAndArgs : List GoAny) : AOut :=
  if equal e a then
    match assert.FormatPrefix messageAndArgs with
    | .ok p =>
      ⟨[.helper, .errorf ("** " ++ p ++ "got " ++ render a ++ ", wanted anything else")], .ret false⟩
    | .error err => ⟨[.helper], .panicked err⟩
  else ⟨[.helper], .ret true⟩

/-- Nil (src/assert.go:108): asserts a pointer is nil; a Go pointer is
modelled as Option with none for nil, and the failure message shows the
dereferenced target (*a). -/
def assert.Nil {T : Type} (render : T → String) (a : Option T)
    (messageAndArgs : List GoAny) : AOut :=
  match a with
  | some v =>
    match assert.FormatPrefix messageAndArgs with
    | .ok p => ⟨[.helper, .errorf ("** " ++ p ++ "got &" ++ render v ++ ", wanted nil")], .ret false⟩
    | .error err => ⟨[.helper], .panicked err⟩
  | none => ⟨[], .ret true⟩

/-- NonNil (src/assert.go:118): asserts a pointer is non-nil; `typeName`
is the %T rendering of the pointer type. -/
def assert.NonNil {T : Type} (typeName : String) (a : Option T)
    (messageAndArgs : List GoAny) : AOut :=
  match a with
  | none =>
    match assert.FormatPrefix messageAndArgs with
    | .ok p => ⟨[.helper, .errorf ("** " ++ p ++ "got nil " ++ typeName ++ ", wanted non-nil")], .ret false⟩
    | .error err => ⟨[.helper], .panicked err⟩
  | some _ => ⟨[], .ret true⟩

/-- Zero (src/assert.go:128): asserts the value equals its type's zero
value (the Go `var zero T`, passed as the parameter `zero`). -/
def assert.Zero {T : Type} [DecidableEq T] (render : T → String) (zero : T) (a : T)
    (messageAndArgs : List GoAny) : AOut :=
  if a ≠ zero then
    match assert.FormatPrefix messageAndArgs with
    | .ok p =>
      ⟨[.helper, .errorf ("** " ++ p ++ "got " ++ render a ++ ", wanted zero value " ++ render zero)], .ret false⟩
    | .error err => ⟨[.helper], .panicked err⟩
  else ⟨[], .ret true⟩

/-- NonZero (src/assert.go:139): asserts the value differs from its
type's zero value. -/
def assert.NonZero {T : Type} [DecidableEq T] (render : T → String) (zero : T) (a : T)
    (messageAndArgs : List GoAny) : AOut :=
  if a = zero then
    match assert.FormatPrefix messageAndArgs with
    | .ok p =>
      ⟨[.helper, .errorf ("** " ++ p ++ "got zero value " ++ render a ++ ", wanted non-zero")], .ret false⟩
    | .error err => ⟨[.helper], .panicked err⟩
  else ⟨[], .ret true⟩

/-- A Go slice: none is the nil (uninitialized) slice, some l an
initialized slice with elements l. -/
abbrev GoSlice (T : Type) := Option (List T)

/-- Go len() on a slice: nil has length 0. -/
def GoSlice.len {T : Type} : GoSlice T → Nat
  | none => 0
  | some l => l.length

/-- %v rendering of a Go slice (nil and empty both render as "[]"). -/
def GoSlice.render {T : Type} (renderElem : T → String) : GoSlice T → String
  | none => "[]"
  | some l => "[" ++ String.intercalate " " (l.map renderElem) ++ "]"

/-- A Go map, carried as its entry list: none is the nil map. -/
abbrev GoMap (K V : Type) := Option (List (K × V))

/-- Go len() on a map: nil has length 0. -/
def GoMap.len {K V : Type} : GoMap K V → Nat
  | none => 0
  | some l => l.length

/-- %v rendering of a Go map (nil and empty both render as "map[]";
entries are assumed stored in fmt's sorted-key order). -/
def GoMap.render {K V : Type} (renderK : K → String) (renderV : V → String) :
    GoMap K V → String
  | none => "map[]"
  | some l => "map[" ++ String.intercalate " " (l.map (fun kv => renderK kv.1 ++ ":" ++ renderV kv.2)) ++ "]"

/-- EmptySlice (src/assert.go:150): asserts the slice is nil or empty
(condition len(a) > 0 triggers the failure path). -/
def assert.EmptySlice {T : Type} (renderElem : T → String) (a : GoSlice T)
    (messageAndArgs : List GoAny) : AOut :=
  if GoSlice.len a > 0 then
    match assert.FormatPrefix messageAndArgs with
    | .ok p =>
      ⟨[.helper, .errorf ("** " ++ p ++ "got " ++ GoSlice.render renderElem a ++ ", wanted empty slice")], .ret false⟩
    | .error err => ⟨[.helper], .panicked err⟩
  else ⟨[], .ret true⟩

/-- NonEmptySlice (src/assert.go:160): asserts the slice has non-zero
length; `typeName` is the %T rendering of the slice type. -/
def assert.NonEmptySlice {T : Type} (typeName : String) (a : GoSlice T)
    (messageAndArgs : List GoAny) : AOut :=
  if GoSlice.len a = 0 then
    match assert.FormatPrefix messageAndArgs with
    | .ok p =>
      ⟨[.helper, .errorf ("** " ++ p ++ "got empty " ++ typeName ++ ", wanted non-empty")], .ret false⟩
    | .error err => ⟨[.helper], .panicked err⟩
  else ⟨[], .ret true⟩

/-- EmptyMap (src/assert.go:170): asserts the map is nil or empty. -/
def assert.EmptyMap {K V : Type} (renderK : K → String) (renderV : V → String) (a : GoMap K V)
    (messageAndArgs : List GoAny) : AOut :=
  if GoMap.len a > 0 then
    match assert.FormatPrefix messageAndArgs with
    | .ok p =>
      ⟨[.helper, .errorf ("** " ++ p ++ "got " ++ GoMap.render renderK renderV a ++ ", wanted empty map")], .ret false⟩
    | .error err => ⟨[.helper], .panicked err⟩
  else ⟨[], .ret true⟩

/-- NonEmptyMap (src/assert.go:180): asserts the map has non-zero length;
`typeName` is the %T rendering of the map type. -/
def assert.NonEmptyMap {K V : Type} (typeName : String) (a : GoMap K V)
    (messageAndArgs : List GoAny) : AOut :=
  if GoMap.len a = 0 then
    match assert.FormatPrefix messageAndArgs with
    | .ok p =>
      ⟨[.helper, .errorf ("** " ++ p ++ "got empty " ++ typeName ++ ", wanted non-empty")], .ret false⟩
    | .error err => ⟨[.helper], .panicked err⟩
  else ⟨[], .ret true⟩

/-- Success (src/assert.go:190): asserts the error is nil. -/
def assert.Success (a : Option GoErr) (messageAndArgs : List GoAny) : AOut :=
  match a with
  | some aa =>
    match assert.FormatPrefix messageAndArgs with
    | .ok p => ⟨[.helper, .errorf ("** " ++ p ++ "failed: " ++ GoErr.msg aa)], .ret false⟩
    | .error err => ⟨[.helper], .panicked err⟩
  | none => ⟨[], .ret true⟩

/-- Error (src/assert.go:203): asserts the actual error chain-matches the
expected one via errors.Is.  With e == nil the Go body runs t.Helper()
and then returns Success(t, a, messageAndArgs...), so the Success call's
TB operations follow that helper mark. -/
def assert.Error (a e : Option GoErr) (messageAndArgs : List GoAny) : AOut :=
  match e with
  | none =>
    let r := assert.Success a messageAndArgs
    ⟨.helper :: r.calls, r.out⟩
  | some ee =>
    match a with
    | none =>
      match assert.FormatPrefix messageAndArgs with
      | .ok p =>
        ⟨[.helper, .errorf ("** " ++ p ++ "succeeded, wanted to fail with: " ++ GoErr.msg ee)], .ret false⟩
      | .error err => ⟨[.helper], .panicked err⟩
    | some aa =>
      if !(errors.Is aa ee) then
        match assert.FormatPrefix messageAndArgs with
        | .ok p =>
          ⟨[.helper, .errorf ("** " ++ p ++ "failed with: " ++ GoErr.msg aa ++ ", wanted: " ++ GoErr.msg ee)], .ret false⟩
        | .error err => ⟨[.helper], .panicked err⟩
      else ⟨[], .ret true⟩

/-- ErrorMsg (src/assert.go:222): asserts the actual error's message
equals the expected one; with e == "" the Go body returns
Success(t, a, messageAndArgs...) directly (no extra helper mark). -/
def assert.ErrorMsg (a : Option GoErr) (e : String) (messageAndArgs : List GoAny) : AOut :=
  if e = "" then assert.Success a messageAndArgs
  else
    match a with
    | none =>
      match assert.FormatPrefix messageAndArgs with
      | .ok p =>
        ⟨[.helper, .errorf ("** " ++ p ++ "succeeded, wanted to fail with: " ++ e)], .ret false⟩
      | .error err => ⟨[.helper], .panicked err⟩
    | some aa =>
      if GoErr.msg aa ≠ e then
        match assert.FormatPrefix messageAndArgs with
        | .ok p =>
          ⟨[.helper, .errorf ("** " ++ p ++ "failed with: " ++ GoErr.msg aa ++ ", wanted: " ++ e)], .ret false⟩
        | .error err => ⟨[.helper], .panicked err⟩
      else ⟨[], .ret true⟩

/-- A Go func() value, modelled by its observable behaviour: none means
it completes normally, some v means it panics with value v (v can be
GoAny.nil, modelling panic(nil) under Go 1.20 semantics). -/
abbrev GoFunc := Option GoAny

/-- capturePanic (src/assert.go:252): runs f with a deferred recover();
a panic's value is captured and returned, never propagated; normal
completion leaves the named result at its zero value nil. -/
def assert.capturePanic (f : GoFunc) : GoAny :=
  match f with
  | none => .nil
  | some v => v

/-- PanicMsg (src/assert.go:238): asserts that f panics with the given
rendered message. -/
def assert.PanicMsg (f : GoFunc) (e : String) (messageAndArgs : List GoAny) : AOut :=
  let actual := assert.capturePanic f
  if actual = .nil then
    match assert.FormatPrefix messageAndArgs with
    | .ok p =>
      ⟨[.helper, .errorf ("** " ++ p ++ "succeeded, wanted to panic with: " ++ e)], .ret false⟩
    | .error err => ⟨[.helper], .panicked err⟩
  else
    let a := fmt.Sprint actual
    if a ≠ e then
      match assert.FormatPrefix messageAndArgs with
      | .ok p =>
        ⟨[.helper, .errorf ("** " ++ p ++ "paniced with: " ++ a ++ ", wanted: " ++ e)], .ret false⟩
      | .error err => ⟨[.helper], .panicked err⟩
    else ⟨[], .ret true⟩

/-- C4: FormatPrefix returns "" on the empty tail; on a string-led tail it
returns that string rendered printf-style with the remaining elements as
arguments and ": " appended (e.g. on ["x=%v", 7] it returns "x=7: "); on
any other non-empty tail it raises a fault (a panic, not a returned value
or a report) whose message names the offending element's type and value;
and it raises a fault in no other case. -/
theorem formatPrefix_spec :
    assert.FormatPrefix [] = .ok "" ∧
    (∀ (s : String) (rest : List GoAny),
      assert.FormatPrefix (.str s :: rest) = .ok (fmt.Sprintf s rest ++ ": ")) ∧
    (∀ (x : GoAny) (rest : List GoAny), (∀ s, x ≠ .str s) →
      assert.FormatPrefix (x :: rest) =
        .error ("when passing messageAndArgs to assertion funcs, the first extra argument must be a format string, got "
          ++ x.typeName ++ " " ++ x.render)) ∧
    (∀ (tail : List GoAny) (m : String), assert.FormatPrefix tail = .error m →
      ∃ x rest, tail = x :: rest ∧ ∀ s, x ≠ .str s) ∧
    assert.FormatPrefix [.str "x=%v", goInt 7] = .ok "x=7: " := by
  refine ⟨rfl, fun s rest => rfl, ?_, ?_, rfl⟩
  · intro x rest h
    match x with
    | .nil => rfl
    | .str s => exact absurd rfl (h s)
    | .other t r => rfl
  · intro tail m h
    match tail with
    | [] => exact absurd h (by simp [assert.FormatPrefix])
    | .str s :: rest => exact absurd h (by simp [assert.FormatPrefix])
    | .nil :: rest => exact ⟨.nil, rest, rfl, fun s hs => GoAny.noConfusion hs⟩
    | .other t r :: rest => exact ⟨.other t r, rest, rfl, fun s hs => GoAny.noConfusion hs⟩

/-- Witness for C4: the fault case of formatPrefix_spec at the concrete
tail [42]. -/
theorem formatPrefix_spec_witness :
    assert.FormatPrefix [goInt 42] =
      .error "when passing messageAndArgs to assertion funcs, the first extra argument must be a format string, got int 42" :=
  formatPrefix_spec.2.2.1 (goInt 42) [] (fun s hs => GoAny.noConfusion hs)

/-- C5: AddPrefix splices the prefix into a string-led tail and otherwise
prepends prefix and prefixArgs, passing the tail through unchanged; with
the claim's three concrete examples. -/
theorem addPrefix_spec :
    (∀ (s : String) (rest : List GoAny) (pfx : String) (args : List GoAny),
      assert.AddPrefix (.str s :: rest) pfx args = (.str (pfx ++ ": " ++ s) :: args) ++ rest) ∧
    (∀ (pfx : String) (args : List GoAny),
      assert.AddPrefix [] pfx args = .str pfx :: args) ∧
    (∀ (x : GoAny) (rest : List GoAny) (pfx : String) (args : List GoAny), (∀ s, x ≠ .str s) →
      assert.AddPrefix (x :: rest) pfx args = (.str pfx :: args) ++ (x :: rest)) ∧
    assert.AddPrefix [] "foo.%d" [goInt 42] = [.str "foo.%d", goInt 42] ∧
    assert.AddPrefix [.str "bar %s", .str "boz"] "foo.%d" [goInt 42] =
      [.str "foo.%d: bar %s", goInt 42, .str "boz"] ∧
    assert.AddPrefix [goInt 1, goInt 2, goInt 3] "foo.%d" [goInt 42] =
      [.str "foo.%d", goInt 42, goInt 1, goInt 2, goInt 3] := by
  refine ⟨fun s rest pfx args => rfl, fun pfx args => by simp [assert.AddPrefix], ?_, rfl, rfl, rfl⟩
  intro x rest pfx args h
  match x with
  | .nil => rfl
  | .str s => exact absurd rfl (h s)
  | .other t r => rfl

/-- Witness for C5: the pass-through case of addPrefix_spec at a concrete
non-string-led tail. -/
theorem addPrefix_spec_witness :
    assert.AddPrefix [goInt 1] "p" [] = [GoAny.str "p", goInt 1] :=
  addPrefix_spec.2.2.1 (goInt 1) [] "p" [] (fun s hs => GoAny.noConfusion hs)

/-- C7: capturePanic returns the raised value when the operation panics
(never letting the fault propagate — its result type has no fault channel)
and returns the absent marker nil when the operation completes normally. -/
theorem capturePanic_spec :
    (∀ v : GoAny, assert.capturePanic (some v) = v) ∧
    assert.capturePanic none = GoAny.nil :=
  ⟨fun v => rfl, rfl⟩

/-- Counterexample for C3: at actual error "boom", Error with nil expected
performs a different operation sequence on the TB than Success does (an
extra helper mark), so the two calls are not exactly equivalent. -/
theorem error_nil_trace_differs_from_success :
    (assert.Error (some (GoErr.leaf "boom")) none []).calls ≠
      (assert.Success (some (GoErr.leaf "boom")) []).calls := by
  decide

/-- C3 (amended): Error with nil expected returns the same boolean as
Success on the same actual error and tail, and performs the same
operations on the TB except for exactly one additional leading helper
mark. -/
theorem error_nil_is_success_plus_helper (a : Option GoErr) (tail : List GoAny) :
    assert.Error a none tail =
      ⟨TBCall.helper :: (assert.Success a tail).calls, (assert.Success a tail).out⟩ := rfl

/-- Counterexample for C1: MethodEqual on equal operands (the asserted
condition holds and the call returns true) still performs a helper mark
on the reporting capability. -/
theorem methodEqual_touches_tb_on_success :
    (fun x y : Nat => x == y) 1 1 = true ∧
    assert.MethodEqual (fun x y : Nat => x == y) (fun n : Nat => toString n) 1 1 [] =
      ⟨[TBCall.helper], Outcome.ret true⟩ ∧
    (assert.MethodEqual (fun x y : Nat => x == y) (fun n : Nat => toString n) 1 1 []).calls ≠ [] := by
  refine ⟨rfl, rfl, ?_⟩
  decide

/-- C1 (amended): when the asserted condition holds, the call performs no
operation at all on the reporting capability — except MethodEqual and
NotMethodEqual, which mark the helper before checking the condition and so
perform exactly one helper mark (and no report), and Error with a nil
expected error, which marks the helper before delegating to Success and so
performs exactly one helper mark (and no report). -/
theorem reporter_untouched_on_success :
    (∀ tail, assert.OK true tail = ⟨[], .ret true⟩) ∧
    (∀ tail, assert.False false tail = ⟨[], .ret true⟩) ∧
    (∀ (T : Type) [DecidableEq T] (render : T → String) (a : T) (tail : List GoAny),
      assert.Eq render a a tail = ⟨[], .ret true⟩) ∧
    (∀ (T : Type) [DecidableEq T] (render : T → String) (a e : T) (tail : List GoAny), a ≠ e →
      assert.NotEq render a e tail = ⟨[], .ret true⟩) ∧
    (∀ (T : Type) (deepEqual : T → T → Bool) (render : T → String) (a e : T) (tail : List GoAny),
      deepEqual a e = true → assert.DeepEqual deepEqual render a e tail = ⟨[], .ret true⟩) ∧
    (∀ (T : Type) (deepEqual : T → T → Bool) (render : T → String) (a e : T) (tail : List GoAny),
      deepEqual a e = false → assert.NotDeepEqual deepEqual render a e tail = ⟨[], .ret true⟩) ∧
    (∀ (T : Type) (equal : T → T → Bool) (render : T → String) (a e : T) (tail : List GoAny),
      equal e a = true →
      assert.MethodEqual equal render a e tail = ⟨[TBCall.helper], .ret true⟩) ∧
    (∀ (T : Type) (equal : T → T → Bool) (render : T → String) (a e : T) (tail : List GoAny),
      equal e a = false →
      assert.NotMethodEqual equal render a e tail = ⟨[TBCall.helper], .ret true⟩) ∧
    (∀ (T : Type) (render : T → String) (tail : List GoAny),
      assert.Nil render (none : Option T) tail = ⟨[], .ret true⟩) ∧
    (∀ (T : Type) (tn : String) (v : T) (tail : List GoAny),
      assert.NonNil tn (some v) tail = ⟨[], .ret true⟩) ∧
    (∀ (T : Type) [DecidableEq T] (render : T → String) (z : T) (tail : List GoAny),
      assert.Zero render z z tail = ⟨[], .ret true⟩) ∧
    (∀ (T : Type) [DecidableEq T] (render : T → String) (z a : T) (tail : List GoAny), a ≠ z →
      assert.NonZero render z a tail = ⟨[], .ret true⟩) ∧
    (∀ (T : Type) (renderElem : T → String) (a : GoSlice T) (tail : List GoAny),
      GoSlice.len a = 0 → assert.EmptySlice renderElem a tail = ⟨[], .ret true⟩) ∧
    (∀ (T : Type) (tn : String) (a : GoSlice T) (tail : List GoAny),
      GoSlice.len a > 0 → assert.NonEmptySlice tn a tail = ⟨[], .ret true⟩) ∧
    (∀ (K V : Type) (rk : K → String) (rv : V → String) (a : GoMap K V) (tail : List GoAny),
      GoMap.len a = 0 → assert.EmptyMap rk rv a tail = ⟨[], .ret true⟩) ∧
    (∀ (K V : Type) (tn : String) (a : GoMap K V) (tail : List GoAny),
      GoMap.len a > 0 → assert.NonEmptyMap tn a tail = ⟨[], .ret true⟩) ∧
    (∀ tail, assert.Success none tail = ⟨[], .ret true⟩) ∧
    (∀ tail, assert.Error none none tail = ⟨[TBCall.helper], .ret true⟩) ∧
    (∀ (aa ee : GoErr) (tail : List GoAny), errors.Is aa ee = true →
      assert.Error (some aa) (some ee) tail = ⟨[], .ret true⟩) ∧
    (∀ tail, assert.ErrorMsg none "" tail = ⟨[], .ret true⟩) ∧
    (∀ (aa : GoErr) (tail : List GoAny), GoErr.msg aa ≠ "" →
      assert.ErrorMsg (some aa) (GoErr.msg aa) tail = ⟨[], .ret true⟩) ∧
    (∀ (f : GoFunc) (tail : List GoAny), assert.capturePanic f ≠ GoAny.nil →
      assert.PanicMsg f (fmt.Sprint (assert.capturePanic f)) tail = ⟨[], .ret true⟩) := by
  refine ⟨fun tail => rfl, fun tail => rfl, ?_, ?_, ?_, ?_, ?_, ?_,
    fun T render tail => rfl, fun T tn v tail => rfl, ?_, ?_, ?_, ?_, ?_, ?_,
    fun tail => rfl, fun tail => rfl, ?_, ?_, ?_, ?_⟩
  · intro T _ render a tail; simp [assert.Eq]
  · intro T _ render a e tail h; simp [assert.NotEq, h]
  · intro T deepEqual render a e tail h; simp [assert.DeepEqual, h]
  · intro T deepEqual render a e tail h; simp [assert.NotDeepEqual, h]
  · intro T equal render a e tail h; simp [assert.MethodEqual, h]
  · intro T equal render a e tail h; simp [assert.NotMethodEqual, h]
  · intro T _ render z tail; simp [assert.Zero]
  · intro T _ render z a tail h; simp [assert.NonZero, h]
  · intro T renderElem a tail h; simp [assert.EmptySlice, h]
  · intro T tn a tail h; simp [assert.NonEmptySlice, Nat.pos_iff_ne_zero.mp h]
  · intro K V rk rv a tail h; simp [assert.EmptyMap, h]
  · intro K V tn a tail h; simp [assert.NonEmptyMap, Nat.pos_iff_ne_zero.mp h]
  · intro aa ee tail h; simp [assert.Error, h]
  · intro tail; simp [assert.ErrorMsg, assert.Success]
  · intro aa tail h; simp [assert.ErrorMsg, h]
  · intro f tail h; simp [assert.PanicMsg, h]

/-- Witness for C1 (amended): NotEq at 1 versus 2 with an empty tail
succeeds without touching the TB. -/
theorem reporter_untouched_on_success_witness :
    assert.NotEq (fun n : Nat => toString n) 1 2 [] = ⟨[], Outcome.ret true⟩ :=
  reporter_untouched_on_success.2.2.2.1 Nat (fun n : Nat => toString n) 1 2 [] (by decide)

/-- Counterexample for C2: Error with a nil expected error and a failing
actual error marks the helper twice (once itself, once inside the
delegated Success call), not exactly once. -/
theorem error_nil_double_helper_on_failure :
    assert.Error (some (GoErr.leaf "boom")) none [] =
      ⟨[TBCall.helper, TBCall.helper, TBCall.errorf "** failed: boom"], Outcome.ret false⟩ ∧
    (assert.Error (some (GoErr.leaf "boom")) none []).calls.countP
      (fun c => decide (c = TBCall.helper)) ≠ 1 := by
  refine ⟨rfl, ?_⟩
  decide

/-- C2 (amended): when the asserted condition fails and the message tail
is well-formed (FormatPrefix yields the prefix p rather than panicking),
the Errorf report happens exactly once with exactly the documented
"** <prefix><got/wanted description>" text, and the helper mark happens
exactly once — except Error with a nil expected error, which marks the
helper twice before its single report. -/
theorem failure_reports_once (tail : List GoAny) (p : String)
    (hFP : assert.FormatPrefix tail = .ok p) :
    assert.OK false tail =
      ⟨[.helper, .errorf ("** " ++ p ++ "got false, wanted true")], .ret false⟩ ∧
    assert.False true tail =
      ⟨[.helper, .errorf ("** " ++ p ++ "got true, wanted false")], .ret false⟩ ∧
    (∀ (T : Type) [DecidableEq T] (render : T → String) (a e : T), a ≠ e →
      assert.Eq render a e tail =
        ⟨[.helper, .errorf ("** " ++ p ++ "got " ++ render a ++ ", wanted " ++ render e)], .ret false⟩) ∧
    (∀ (T : Type) [DecidableEq T] (render : T → String) (a : T),
      assert.NotEq render a a tail =
        ⟨[.helper, .errorf ("** " ++ p ++ "got " ++ render a ++ ", wanted anything else")], .ret false⟩) ∧
    (∀ (T : Type) (deepEqual : T → T → Bool) (render : T → String) (a e : T),
      deepEqual a e = false →
      assert.DeepEqual deepEqual render a e tail =
        ⟨[.helper, .errorf ("** " ++ p ++ "got " ++ render a ++ ", wanted " ++ render e)], .ret false⟩) ∧
    (∀ (T : Type) (deepEqual : T → T → Bool) (render : T → String) (a e : T),
      deepEqual a e = true →
      assert.NotDeepEqual deepEqual render a e tail =
        ⟨[.helper, .errorf ("** " ++ p ++ "got " ++ render a ++ ", wanted anything else")], .ret false⟩) ∧
    (∀ (T : Type) (equal : T → T → Bool) (render : T → String) (a e : T),
      equal e a = false →
      assert.MethodEqual equal render a e tail =
        ⟨[.helper, .errorf ("** " ++ p ++ "got " ++ render a ++ ", wanted " ++ render e)], .ret false⟩) ∧
    (∀ (T : Type) (equal : T → T → Bool) (render : T → String) (a e : T),
      equal e a = true →
      assert.NotMethodEqual equal render a e tail =
        ⟨[.helper, .errorf ("** " ++ p ++ "got " ++ render a ++ ", wanted anything else")], .ret false⟩) ∧
    (∀ (T : Type) (render : T → String) (v : T),
      assert.Nil render (some v) tail =
        ⟨[.helper, .errorf ("** " ++ p ++ "got &" ++ render v ++ ", wanted nil")], .ret false⟩) ∧
    (∀ (T : Type) (tn : String),
      assert.NonNil tn (none : Option T) tail =
        ⟨[.helper, .errorf ("** " ++ p ++ "got nil " ++ tn ++ ", wanted non-nil")], .ret false⟩) ∧
    (∀ (T : Type) [DecidableEq T] (render : T → String) (z a : T), a ≠ z →
      assert.Zero render z a tail =
        ⟨[.helper, .errorf ("** " ++ p ++ "got " ++ render a ++ ", wanted zero value " ++ render z)], .ret false⟩) ∧
    (∀ (T : Type) [DecidableEq T] (render : T → String) (z : T),
      assert.NonZero render z z tail =
        ⟨[.helper, .errorf ("** " ++ p ++ "got zero value " ++ render z ++ ", wanted non-zero")], .ret false⟩) ∧
    (∀ (T : Type) (renderElem : T → String) (a : GoSlice T), GoSlice.len a > 0 →
      assert.EmptySlice renderElem a tail =
        ⟨[.helper, .errorf ("** " ++ p ++ "got " ++ GoSlice.render renderElem a ++ ", wanted empty slice")], .ret false⟩) ∧
    (∀ (T : Type) (tn : String) (a : GoSlice T), GoSlice.len a = 0 →
      assert.NonEmptySlice tn a tail =
        ⟨[.helper, .errorf ("** " ++ p ++ "got empty " ++ tn ++ ", wanted non-empty")], .ret false⟩) ∧
    (∀ (K V : Type) (rk : K → String) (rv : V → String) (a : GoMap K V), GoMap.len a > 0 →
      assert.EmptyMap rk rv a tail =
        ⟨[.helper, .errorf ("** " ++ p ++ "got " ++ GoMap.render rk rv a ++ ", wanted empty map")], .ret false⟩) ∧
    (∀ (K V : Type) (tn : String) (a : GoMap K V), GoMap.len a = 0 →
      assert.NonEmptyMap tn a tail =
        ⟨[.helper, .errorf ("** " ++ p ++ "got empty " ++ tn ++ ", wanted non-empty")], .ret false⟩) ∧
    (∀ aa : GoErr,
      assert.Success (some aa) tail =
        ⟨[.helper, .errorf ("** " ++ p ++ "failed: " ++ GoErr.msg aa)], .ret false⟩) ∧
    (∀ ee : GoErr,
      assert.Error none (some ee) tail =
        ⟨[.helper, .errorf ("** " ++ p ++ "succeeded, wanted to fail with: " ++ GoErr.msg ee)], .ret false⟩) ∧
    (∀ aa ee : GoErr, errors.Is aa ee = false →
      assert.Error (some aa) (some ee) tail =
        ⟨[.helper, .errorf ("** " ++ p ++ "failed with: " ++ GoErr.msg aa ++ ", wanted: " ++ GoErr.msg ee)], .ret false⟩) ∧
    (∀ aa : GoErr,
      assert.Error (some aa) none tail =
        ⟨[.helper, .helper, .errorf ("** " ++ p ++ "failed: " ++ GoErr.msg aa)], .ret false⟩) ∧
    (∀ aa : GoErr,
      assert.ErrorMsg (some aa) "" tail =
        ⟨[.helper, .errorf ("** " ++ p ++ "failed: " ++ GoErr.msg aa)], .ret false⟩) ∧
    (∀ e : String, e ≠ "" →
      assert.ErrorMsg none e tail =
        ⟨[.helper, .errorf ("** " ++ p ++ "succeeded, wanted to fail with: " ++ e)], .ret false⟩) ∧
    (∀ (aa : GoErr) (e : String), e ≠ "" → GoErr.msg aa ≠ e →
      assert.ErrorMsg (some aa) e tail =
        ⟨[.helper, .errorf ("** " ++ p ++ "failed with: " ++ GoErr.msg aa ++ ", wanted: " ++ e)], .ret false⟩) ∧
    (∀ (f : GoFunc) (e : String), assert.capturePanic f = GoAny.nil →
      assert.PanicMsg f e tail =
        ⟨[.helper, .errorf ("** " ++ p ++ "succeeded, wanted to panic with: " ++ e)], .ret false⟩) ∧
    (∀ (f : GoFunc) (e : String), assert.capturePanic f ≠ GoAny.nil →
      fmt.Sprint (assert.capturePanic f) ≠ e →
      assert.PanicMsg f e tail =
        ⟨[.helper, .errorf ("** " ++ p ++ "paniced with: " ++ fmt.Sprint (assert.capturePanic f) ++ ", wanted: " ++ e)], .ret false⟩) := by
  refine ⟨?_, ?_, ?_, ?_, ?_, ?_, ?_, ?_, ?_, ?_, ?_, ?_, ?_, ?_, ?_, ?_, ?_, ?_, ?_, ?_, ?_, ?_, ?_, ?_, ?_⟩
  · simp [assert.OK, hFP]
  · simp [assert.False, hFP]
  · intro T _ render a e h; simp [assert.Eq, h, hFP]
  · intro T _ render a; simp [assert.NotEq, hFP]
  · intro T deepEqual render a e h; simp [assert.DeepEqual, h, hFP]
  · intro T deepEqual render a e h; simp [assert.NotDeepEqual, h, hFP]
  · intro T equal render a e h; simp [assert.MethodEqual, h, hFP]
  · intro T equal render a e h; simp [assert.NotMethodEqual, h, hFP]
  · intro T render v; simp [assert.Nil, hFP]
  · intro T tn; simp [assert.NonNil, hFP]
  · intro T _ render z a h; simp [assert.Zero, h, hFP]
  · intro T _ render z; simp [assert.NonZero, hFP]
  · intro T renderElem a h; simp [assert.EmptySlice, h, hFP]
  · intro T tn a h; simp [assert.NonEmptySlice, h, hFP]
  · intro K V rk rv a h; simp [assert.EmptyMap, h, hFP]
  · intro K V tn a h; simp [assert.NonEmptyMap, h, hFP]
  · intro aa; simp [assert.Success, hFP]
  · intro ee; simp [assert.Error, hFP]
  · intro aa ee h; simp [assert.Error, h, hFP]
  · intro aa; simp [assert.Error, assert.Success, hFP]
  · intro aa; simp [assert.ErrorMsg, assert.Success, hFP]
  · intro e h; simp [assert.ErrorMsg, h, hFP]
  · intro aa e h1 h2; simp [assert.ErrorMsg, h1, h2, hFP]
  · intro f e h; simp [assert.PanicMsg, h, hFP]
  · intro f e h1 h2; simp [assert.PanicMsg, h1, h2, hFP]

/-- Witness for C2 (amended): OK on false with the empty tail reports
exactly the documented message once. -/
theorem failure_reports_once_witness :
    assert.OK false [] =
      ⟨[TBCall.helper, TBCall.errorf "** got false, wanted true"], Outcome.ret false⟩ :=
  (failure_reports_once [] "" rfl).1

/-- C8: every assertion operation returns exactly the truth value of its
asserted condition on the given operands (for calls whose message tail is
well-formed, so that the call returns at all), independently of the
reporting performed: OK returns a, Eq returns a == e, Success returns
a == nil, and so on. -/
theorem returns_condition (tail : List GoAny) (p : String)
    (hFP : assert.FormatPrefix tail = .ok p) :
    (∀ a : Bool, (assert.OK a tail).out = .ret a) ∧
    (∀ a : Bool, (assert.False a tail).out = .ret (!a)) ∧
    (∀ (T : Type) [DecidableEq T] (render : T → String) (a e : T),
      (assert.Eq render a e tail).out = .ret (decide (a = e))) ∧
    (∀ (T : Type) [DecidableEq T] (render : T → String) (a e : T),
      (assert.NotEq render a e tail).out = .ret (!decide (a = e))) ∧
    (∀ (T : Type) (deepEqual : T → T → Bool) (render : T → String) (a e : T),
      (assert.DeepEqual deepEqual render a e tail).out = .ret (deepEqual a e)) ∧
    (∀ (T : Type) (deepEqual : T → T → Bool) (render : T → String) (a e : T),
      (assert.NotDeepEqual deepEqual render a e tail).out = .ret (!(deepEqual a e))) ∧
    (∀ (T : Type) (equal : T → T → Bool) (render : T → String) (a e : T),
      (assert.MethodEqual equal render a e tail).out = .ret (equal e a)) ∧
    (∀ (T : Type) (equal : T → T → Bool) (render : T → String) (a e : T),
      (assert.NotMethodEqual equal render a e tail).out = .ret (!(equal e a))) ∧
    (∀ (T : Type) (render : T → String) (a : Option T),
      (assert.Nil render a tail).out = .ret a.isNone) ∧
    (∀ (T : Type) (tn : String) (a : Option T),
      (assert.NonNil tn a tail).out = .ret a.isSome) ∧
    (∀ (T : Type) [DecidableEq T] (render : T → String) (z a : T),
      (assert.Zero render z a tail).out = .ret (decide (a = z))) ∧
    (∀ (T : Type) [DecidableEq T] (render : T → String) (z a : T),
      (assert.NonZero render z a tail).out = .ret (!decide (a = z))) ∧
    (∀ (T : Type) (renderElem : T → String) (a : GoSlice T),
      (assert.EmptySlice renderElem a tail).out = .ret (decide (GoSlice.len a = 0))) ∧
    (∀ (T : Type) (tn : String) (a : GoSlice T),
      (assert.NonEmptySlice tn a tail).out = .ret (!decide (GoSlice.len a = 0))) ∧
    (∀ (K V : Type) (rk : K → String) (rv : V → String) (a : GoMap K V),
      (assert.EmptyMap rk rv a tail).out = .ret (decide (GoMap.len a = 0))) ∧
    (∀ (K V : Type) (tn : String) (a : GoMap K V),
      (assert.NonEmptyMap tn a tail).out = .ret (!decide (GoMap.len a = 0))) ∧
    (∀ a : Option GoErr, (assert.Success a tail).out = .ret a.isNone) ∧
    (∀ a : Option GoErr, (assert.Error a none tail).out = .ret a.isNone) ∧
    (∀ (a : Option GoErr) (ee : GoErr),
      (assert.Error a (some ee) tail).out =
        .ret (match a with | none => false | some aa => errors.Is aa ee)) ∧
    (∀ a : Option GoErr, (assert.ErrorMsg a "" tail).out = .ret a.isNone) ∧
    (∀ (a : Option GoErr) (e : String), e ≠ "" →
      (assert.ErrorMsg a e tail).out =
        .ret (match a with | none => false | some aa => decide (GoErr.msg aa = e))) ∧
    (∀ (f : GoFunc) (e : String),
      (assert.PanicMsg f e tail).out =
        .ret (!decide (assert.capturePanic f = GoAny.nil) &&
          decide (fmt.Sprint (assert.capturePanic f) = e))) := by
  refine ⟨?_, ?_, ?_, ?_, ?_, ?_, ?_, ?_, ?_, ?_, ?_, ?_, ?_, ?_, ?_, ?_, ?_, ?_, ?_, ?_, ?_, ?_⟩
  · intro a; cases a <;> simp [assert.OK, hFP]
  · intro a; cases a <;> simp [assert.False, hFP]
  · intro T _ render a e
    rcases eq_or_ne a e with h | h <;> simp [assert.Eq, h, hFP]
  · intro T _ render a e
    rcases eq_or_ne a e with h | h <;> simp [assert.NotEq, h, hFP]
  · intro T deepEqual render a e
    rcases Bool.eq_false_or_eq_true (deepEqual a e) with h | h <;>
      simp [assert.DeepEqual, h, hFP]
  · intro T deepEqual render a e
    rcases Bool.eq_false_or_eq_true (deepEqual a e) with h | h <;>
      simp [assert.NotDeepEqual, h, hFP]
  · intro T equal render a e
    rcases Bool.eq_false_or_eq_true (equal e a) with h | h <;>
      simp [assert.MethodEqual, h, hFP]
  · intro T equal render a e
    rcases Bool.eq_false_or_eq_true (equal e a) with h | h <;>
      simp [assert.NotMethodEqual, h, hFP]
  · intro T render a; cases a <;> simp [assert.Nil, hFP]
  · intro T tn a; cases a <;> simp [assert.NonNil, hFP]
  · intro T _ render z a
    rcases eq_or_ne a z with h | h <;> simp [assert.Zero, h, hFP]
  · intro T _ render z a
    rcases eq_or_ne a z with h | h <;> simp [assert.NonZero, h, hFP]
  · intro T renderElem a
    rcases Nat.eq_zero_or_pos (GoSlice.len a) with h | h <;>
      simp [assert.EmptySlice, h, hFP, Nat.pos_iff_ne_zero.mp]
  · intro T tn a
    rcases Nat.eq_zero_or_pos (GoSlice.len a) with h | h <;>
      simp [assert.NonEmptySlice, h, hFP]
    simp [Nat.pos_iff_ne_zero.mp h]
  · intro K V rk rv a
    rcases Nat.eq_zero_or_pos (GoMap.len a) with h | h <;>
      simp [assert.EmptyMap, h, hFP]
    omega
  · intro K V tn a
    rcases Nat.eq_zero_or_pos (GoMap.len a) with h | h <;>
      simp [assert.NonEmptyMap, h, hFP]
    simp [Nat.pos_iff_ne_zero.mp h]
  · intro a; cases a <;> simp [assert.Success, hFP]
  · intro a; cases a <;> simp [assert.Error, assert.Success, hFP]
  · intro a ee
    match a with
    | none => simp [assert.Error, hFP]
    | some aa =>
      rcases Bool.eq_false_or_eq_true (errors.Is aa ee) with h | h <;>
        simp [assert.Error, h, hFP]
  · intro a; cases a <;> simp [assert.ErrorMsg, assert.Success, hFP]
  · intro a e he
    match a with
    | none => simp [assert.ErrorMsg, he, hFP]
    | some aa =>
      rcases eq_or_ne (GoErr.msg aa) e with h | h <;> simp [assert.ErrorMsg, he, h, hFP]
  · intro f e
    rcases eq_or_ne (assert.capturePanic f) GoAny.nil with h | h
    · simp [assert.PanicMsg, h, hFP]
    · rcases eq_or_ne (fmt.Sprint (assert.capturePanic f)) e with h2 | h2 <;>
        simp [assert.PanicMsg, h, h2, hFP]

/-- Witness for C8: OK applied to false with the empty tail returns
false. -/
theorem returns_condition_witness :
    (assert.OK false []).out = Outcome.ret false :=
  (returns_condition [] "" rfl).1 false

/-- C6: PanicMsg runs f under capturePanic and then reports
"succeeded, wanted to panic with: e" when no fault was captured, reports
"paniced with: <rendered>, wanted: e" when the captured fault's rendered
text differs from e, and returns true with no report when the rendered
text equals e. -/
theorem panicMsg_cases (f : GoFunc) (e : String) (tail : List GoAny) :
    (∀ p, assert.FormatPrefix tail = .ok p →
      (assert.capturePanic f = GoAny.nil →
        assert.PanicMsg f e tail =
          ⟨[.helper, .errorf ("** " ++ p ++ "succeeded, wanted to panic with: " ++ e)], .ret false⟩) ∧
      (assert.capturePanic f ≠ GoAny.nil → fmt.Sprint (assert.capturePanic f) ≠ e →
        assert.PanicMsg f e tail =
          ⟨[.helper, .errorf ("** " ++ p ++ "paniced with: " ++ fmt.Sprint (assert.capturePanic f) ++ ", wanted: " ++ e)], .ret false⟩)) ∧
    (assert.capturePanic f ≠ GoAny.nil → fmt.Sprint (assert.capturePanic f) = e →
      assert.PanicMsg f e tail = ⟨[], .ret true⟩) := by
  refine ⟨fun p hFP => ⟨?_, ?_⟩, ?_⟩
  · intro h; simp [assert.PanicMsg, h, hFP]
  · intro h1 h2; simp [assert.PanicMsg, h1, h2, hFP]
  · intro h1 h2; simp [assert.PanicMsg, h1, h2]

/-- Witness for C6: a function panicking with the string "x" satisfies the
PanicMsg assertion for expected text "x" with no TB operations. -/
theorem panicMsg_cases_witness :
    assert.PanicMsg (some (GoAny.str "x")) "x" [] = ⟨[], Outcome.ret true⟩ :=
  (panicMsg_cases (some (GoAny.str "x")) "x" []).2 (by decide) rfl

/-- C9: the container and pointer assertions treat a nil (uninitialized)
container or pointer exactly like its zero-length initialized counterpart:
EmptySlice, NonEmptySlice, EmptyMap and NonEmptyMap behave identically on
none and on some [], for every element and key/value type and every tail;
and Nil accepts the nil pointer while NonNil rejects it. -/
theorem nil_container_like_empty :
    (∀ (T : Type) (renderElem : T → String) (tail : List GoAny),
      assert.EmptySlice renderElem (none : GoSlice T) tail =
        assert.EmptySlice renderElem (some ([] : List T)) tail) ∧
    (∀ (T : Type) (tn : String) (tail : List GoAny),
      assert.NonEmptySlice tn (none : GoSlice T) tail =
        assert.NonEmptySlice tn (some ([] : List T)) tail) ∧
    (∀ (K V : Type) (rk : K → String) (rv : V → String) (tail : List GoAny),
      assert.EmptyMap rk rv (none : GoMap K V) tail =
        assert.EmptyMap rk rv (some ([] : List (K × V))) tail) ∧
    (∀ (K V : Type) (tn : String) (tail : List GoAny),
      assert.NonEmptyMap tn (none : GoMap K V) tail =
        assert.NonEmptyMap tn (some ([] : List (K × V))) tail) ∧
    (∀ (T : Type) (render : T → String) (tail : List GoAny),
      assert.Nil render (none : Option T) tail = ⟨[], .ret true⟩) ∧
    (∀ (T : Type) (tn : String) (tail : List GoAny) (p : String),
      assert.FormatPrefix tail = .ok p →
      assert.NonNil tn (none : Option T) tail =
        ⟨[.helper, .errorf ("** " ++ p ++ "got nil " ++ tn ++ ", wanted non-nil")], .ret false⟩) := by
  refine ⟨fun T renderElem tail => rfl, fun T tn tail => rfl,
    fun K V rk rv tail => rfl, fun K V tn tail => rfl,
    fun T render tail => rfl, ?_⟩
  intro T tn tail p hFP
  simp [assert.NonNil, hFP]

/-- Witness for C9: NonNil on a nil pointer (at type Unit) with an empty
tail reports the documented message. -/
theorem nil_container_like_empty_witness :
    assert.NonNil "*int" (none : Option Unit) [] =
      ⟨[TBCall.helper, TBCall.errorf "** got nil *int, wanted non-nil"], Outcome.ret false⟩ :=
  nil_container_like_empty.2.2.2.2.2 Unit "*int" [] "" rfl

/-- C10: when the operation panics with a nil panic value, capturePanic
returns nil, PanicMsg cannot distinguish this from normal completion, and
for every non-empty expected string e it reports
"** <prefix>succeeded, wanted to panic with: e" and returns false even
though the operation did raise a fault. -/
theorem panicMsg_nil_panic (e : String) (tail : List GoAny) (p : String)
    (he : e ≠ "") (hFP : assert.FormatPrefix tail = .ok p) :
    assert.capturePanic (some GoAny.nil) = GoAny.nil ∧
    assert.PanicMsg (some GoAny.nil) e tail = assert.PanicMsg none e tail ∧
    assert.PanicMsg (some GoAny.nil) e tail =
      ⟨[.helper, .errorf ("** " ++ p ++ "succeeded, wanted to panic with: " ++ e)], .ret false⟩ ∧
    (assert.PanicMsg (some GoAny.nil) e tail).out = .ret false := by
  refine ⟨rfl, rfl, ?_, ?_⟩
  · simp [assert.PanicMsg, assert.capturePanic, hFP]
  · simp [assert.PanicMsg, assert.capturePanic, hFP]

/-- Witness for C10: at expected text "foo" and the empty tail, the nil
panic is reported as if the operation had succeeded. -/
theorem panicMsg_nil_panic_witness :
    assert.PanicMsg (some GoAny.nil) "foo" [] =
      ⟨[TBCall.helper, TBCall.errorf "** succeeded, wanted to panic with: foo"], Outcome.ret false⟩ :=
  (panicMsg_nil_panic "foo" [] "" (by decide) rfl).2.2.1
